import Mathlib

/-!
Shallow embedding of the `Artifact` and `Feature` value objects of the
`autoop` repository (files `autoop/core/ml/artifact.py` and
`autoop/core/ml/feature.py`), together with theorems checking the
natural-language specification against the code.

Python values that can flow through the untyped constructor keywords and
through `save` are modelled by the small dynamic type `PyVal`; raised
exceptions are modelled by `Except PyError`.
-/

/-- A Python runtime value, restricted to the shapes these two classes
can actually receive through their public API: strings, ints, bytes
objects (as lists of byte values) and `None`. -/
inductive PyVal where
  | vstr : String → PyVal
  | vint : Int → PyVal
  | vbytes : List Nat → PyVal
  | vnone : PyVal
deriving DecidableEq, Repr

/-- The exceptions the embedded code can raise: `ValueError` (with its
message) from the version setter, pydantic `ValidationError` from model
construction, and `AttributeError` from calling a method on `None`. -/
inductive PyError where
  | valueError : String → PyError
  | validationError : PyError
  | attributeError : PyError
deriving DecidableEq, Repr

/-- UTF-8 encoding of one character, as Python's `str.encode()` produces
for each code point (1 to 4 bytes). -/
def utf8EncodeCharNat (c : Char) : List Nat :=
  let n := c.toNat
  if n < 0x80 then [n]
  else if n < 0x800 then [0xC0 + n / 64, 0x80 + n % 64]
  else if n < 0x10000 then
    [0xE0 + n / 4096, 0x80 + (n / 64) % 64, 0x80 + n % 64]
  else
    [0xF0 + n / 262144, 0x80 + (n / 4096) % 64, 0x80 + (n / 64) % 64,
      0x80 + n % 64]

/-- Python `s.encode()`: the UTF-8 bytes of the string. -/
def strEncode (s : String) : List Nat :=
  s.data.foldr (fun c acc => utf8EncodeCharNat c ++ acc) []

/-- The URL-safe base64 alphabet of `base64.urlsafe_b64encode`:
`A-Z`, `a-z`, `0-9`, `-`, `_`. -/
def b64char (n : Nat) : Char :=
  if n < 26 then Char.ofNat (65 + n)
  else if n < 52 then Char.ofNat (97 + (n - 26))
  else if n < 62 then Char.ofNat (48 + (n - 52))
  else if n = 62 then Char.ofNat 45
  else Char.ofNat 95

/-- Base64 encoding of a byte list in groups of three, with `=` padding,
exactly as `base64.b64encode` groups its input. -/
def b64encodeGroups : List Nat → List Char
  | [] => []
  | [b1] =>
      [b64char (b1 / 4), b64char (b1 % 4 * 16), Char.ofNat 61, Char.ofNat 61]
  | [b1, b2] =>
      [b64char (b1 / 4), b64char (b1 % 4 * 16 + b2 / 16),
        b64char (b2 % 16 * 4), Char.ofNat 61]
  | b1 :: b2 :: b3 :: rest =>
      b64char (b1 / 4) :: b64char (b1 % 4 * 16 + b2 / 16)
        :: b64char (b2 % 16 * 4 + b3 / 64) :: b64char (b3 % 64)
        :: b64encodeGroups rest

/-- `base64.urlsafe_b64encode(bs).decode()`: the base64 text of the
bytes, using the URL-safe alphabet. -/
def urlsafe_b64encode (bs : List Nat) : String :=
  String.mk (b64encodeGroups bs)

/-- Escape of one byte inside Python's `repr` of a bytes object. -/
def bytesReprByte (b : Nat) : List Char :=
  if b = 92 then [Char.ofNat 92, Char.ofNat 92]
  else if b = 39 then [Char.ofNat 92, Char.ofNat 39]
  else if b = 9 then [Char.ofNat 92, Char.ofNat 116]
  else if b = 10 then [Char.ofNat 92, Char.ofNat 110]
  else if b = 13 then [Char.ofNat 92, Char.ofNat 114]
  else if 32 ≤ b ∧ b ≤ 126 then [Char.ofNat b]
  else [Char.ofNat 92, Char.ofNat 120,
    Nat.digitChar (b / 16 % 16), Nat.digitChar (b % 16)]

/-- Python `str(v)` for the values of `PyVal`, as f-string interpolation
applies it.  (For a bytes object Python chooses double quotes when the
payload contains a single quote but no double quote; that corner never
arises in the claims and the single-quote form is used throughout.) -/
def pyStr : PyVal → String
  | .vstr s => s
  | .vint n => toString n
  | .vbytes bs =>
      String.mk (Char.ofNat 98 :: Char.ofNat 39
        :: (bs.foldr (fun b acc => bytesReprByte b ++ acc) [Char.ofNat 39]))
  | .vnone => "None"

/-- The `Artifact` pydantic model: declared fields `name`, `type`,
`metadata`, `tags` plus the private attributes `_version`,
`_asset_path`, `_data` that `__init__` fills from the raw keyword
dictionary.  `metadata` and `tags` are kept as the raw supplied keyword
value (`none` when defaulted); no claim inspects their contents. -/
structure Artifact where
  name : String
  type : String
  metadata : Option PyVal
  tags : Option PyVal
  _version : PyVal
  _asset_path : PyVal
  _data : PyVal
deriving DecidableEq, Repr

/-- `Artifact.__init__(**data)`: pydantic validates the declared fields
(`name` and `type` must be present strings; unknown keywords are
ignored), then the constructor body stores
`data.get('asset_path')`, `data.get('data')` and
`data.get('version', "1.0.0")` into the private attributes, without any
further validation. -/
def Artifact.init (kw : List (String × PyVal)) : Except PyError Artifact :=
  match kw.lookup "name" with
  | some (PyVal.vstr n) =>
      match kw.lookup "type" with
      | some (PyVal.vstr t) =>
          Except.ok
            { name := n
              type := t
              metadata := kw.lookup "metadata"
              tags := kw.lookup "tags"
              _asset_path := (kw.lookup "asset_path").getD PyVal.vnone
              _data := (kw.lookup "data").getD PyVal.vnone
              _version := (kw.lookup "version").getD (PyVal.vstr "1.0.0") }
      | _ => Except.error PyError.validationError
  | _ => Except.error PyError.validationError

/-- Property getter `Artifact.asset_path`: returns `self._asset_path`. -/
def Artifact.asset_path (a : Artifact) : PyVal :=
  a._asset_path

/-- Property getter `Artifact.version`: returns `self._version`. -/
def Artifact.version (a : Artifact) : PyVal :=
  a._version

/-- Property setter `Artifact.version`: raises
`ValueError("Version must be a non-empty string.")` when the new value
is not a string or is the falsy empty string, otherwise stores it. -/
def Artifact.version_set (a : Artifact) (new_version : PyVal) :
    Except PyError Artifact :=
  match new_version with
  | PyVal.vstr s =>
      if s = "" then
        Except.error (PyError.valueError "Version must be a non-empty string.")
      else
        Except.ok { a with _version := PyVal.vstr s }
  | _ => Except.error (PyError.valueError "Version must be a non-empty string.")

/-- The object state after executing the assignment `a.version = v`:
in the source the `raise` precedes the field write, so on error the
exception propagates and the object is left as it was. -/
def Artifact.version_set_state (a : Artifact) (v : PyVal) : Artifact :=
  match a.version_set v with
  | Except.ok a' => a'
  | Except.error _ => a

/-- Property `Artifact.id`: `base64.urlsafe_b64encode(self._asset_path.encode()).decode()`
followed by `":"` and the f-string rendering of `self._version`;
raises `AttributeError` when `_asset_path` is not a string (e.g. `None`
has no `encode`).  Computed from the current state on every access;
the `Artifact` state holds no `id` field. -/
def Artifact.id (a : Artifact) : Except PyError String :=
  match a._asset_path with
  | PyVal.vstr p =>
      Except.ok (urlsafe_b64encode (strEncode p) ++ ":" ++ pyStr a._version)
  | _ => Except.error PyError.attributeError

/-- `Artifact.read()`: returns `self._data`. -/
def Artifact.read (a : Artifact) : PyVal :=
  a._data

/-- `Artifact.save(data)`: stores `data` into `self._data`,
unconditionally. -/
def Artifact.save (a : Artifact) (data : PyVal) : Artifact :=
  { a with _data := data }

/-- The `type` of a `Feature`: `Literal['categorical', 'numerical']`. -/
inductive FType where
  | categorical : FType
  | numerical : FType
deriving DecidableEq, Repr

/-- The string a `FType` renders as (pydantic stores the literal string
itself). -/
def FType.toStr : FType → String
  | .categorical => "categorical"
  | .numerical => "numerical"

/-- The `Feature` pydantic model: `name` with `min_length=1` and the
two-valued literal `type`. -/
structure Feature where
  name : String
  type : FType
deriving DecidableEq, Repr

/-- `Feature(name=..., type=...)`: pydantic raises `ValidationError`
when `name` has fewer than 1 character or `type` is not one of the two
literal strings. -/
def Feature.init (name ty : String) : Except PyError Feature :=
  if name.length < 1 then Except.error PyError.validationError
  else if ty = "categorical" then Except.ok ⟨name, FType.categorical⟩
  else if ty = "numerical" then Except.ok ⟨name, FType.numerical⟩
  else Except.error PyError.validationError

/-- `Feature.__str__`: the f-string
`Feature(name='<name>', type='<type>')`. -/
def Feature.toDisplayString (f : Feature) : String :=
  "Feature(name='" ++ f.name ++ "', type='" ++ f.type.toStr ++ "')"

/-- Boolean form of the spec's version invariant: the value is a
non-empty string. -/
def PyVal.isNonEmptyStr : PyVal → Bool
  | .vstr s => s != ""
  | _ => false

/-- The keyword arguments of the test fixture (metadata/tags omitted:
no claim inspects them). -/
def kwFixture : List (String × PyVal) :=
  [("name", PyVal.vstr "test_artifact"),
   ("asset_path", PyVal.vstr "path/to/asset"),
   ("data", PyVal.vbytes [116, 101, 115, 116, 95, 100, 97, 116, 97]),
   ("type", PyVal.vstr "test_type")]

/-- The artifact the fixture keyword arguments construct. -/
def fixtureArtifact : Artifact :=
  { name := "test_artifact"
    type := "test_type"
    metadata := none
    tags := none
    _version := PyVal.vstr "1.0.0"
    _asset_path := PyVal.vstr "path/to/asset"
    _data := PyVal.vbytes [116, 101, 115, 116, 95, 100, 97, 116, 97] }

/-- The fixture artifact after `artifact.version = "2.0.0"`. -/
def fixtureArtifact2 : Artifact :=
  { fixtureArtifact with _version := PyVal.vstr "2.0.0" }

/-- The feature `Feature(name="age", type="numerical")`. -/
def featureAge : Feature :=
  { name := "age", type := FType.numerical }

/-- C1: for an Artifact whose `asset_path` is the string P and whose
current version is the string V, `id` returns
`urlsafe_base64(P) + ":" + V`; and because `id` is recomputed from the
current state on every access, after a successful version assignment
the next `id` access uses the new version. -/
theorem artifact_id_recomputed (a : Artifact) (p v : String)
    (hp : a._asset_path = PyVal.vstr p) (hv : a._version = PyVal.vstr v) :
    a.id = Except.ok (urlsafe_b64encode (strEncode p) ++ ":" ++ v) ∧
    ∀ w a', a.version_set (PyVal.vstr w) = Except.ok a' →
      a'.id = Except.ok (urlsafe_b64encode (strEncode p) ++ ":" ++ w) := by
  constructor
  · simp [Artifact.id, hp, hv, pyStr]
  · intro w a' h
    unfold Artifact.version_set at h
    by_cases hw : w = ""
    · simp [hw] at h
    · simp [hw] at h
      subst h
      simp [Artifact.id, hp, pyStr]

/-- Witness for C1 on the test fixture. -/
theorem artifact_id_recomputed_witness :
    fixtureArtifact.id = Except.ok "cGF0aC90by9hc3NldA==:1.0.0" := by
  rw [(artifact_id_recomputed fixtureArtifact "path/to/asset" "1.0.0" rfl rfl).1]
  rfl

/-- C2: `save(d)` followed by `read()` returns exactly `d`, whatever
payload the artifact held before, and `save` changes no field other
than the payload (in particular not the version). -/
theorem artifact_save_read_roundtrip (a : Artifact) (d : List Nat) :
    (a.save (PyVal.vbytes d)).read = PyVal.vbytes d ∧
    (a.save (PyVal.vbytes d)).name = a.name ∧
    (a.save (PyVal.vbytes d)).type = a.type ∧
    (a.save (PyVal.vbytes d)).metadata = a.metadata ∧
    (a.save (PyVal.vbytes d)).tags = a.tags ∧
    (a.save (PyVal.vbytes d))._version = a._version ∧
    (a.save (PyVal.vbytes d))._asset_path = a._asset_path := by
  simp [Artifact.save, Artifact.read]

/-- C3: assigning a version raises exactly when the new value is not a
string or is the empty string; assigning any non-empty string succeeds
and is immediately returned by the getter. -/
theorem artifact_version_set_validates (a : Artifact) (v : PyVal) :
    (a.version_set v
        = Except.error (PyError.valueError "Version must be a non-empty string.")
      ↔ ¬ ∃ s, v = PyVal.vstr s ∧ s ≠ "") ∧
    ∀ s, s ≠ "" →
      a.version_set (PyVal.vstr s)
          = Except.ok { a with _version := PyVal.vstr s } ∧
        ({ a with _version := PyVal.vstr s} : Artifact).version = PyVal.vstr s := by
  constructor
  · cases v with
    | vstr s =>
        by_cases hs : s = "" <;> simp [Artifact.version_set, hs]
    | vint n => simp [Artifact.version_set]
    | vbytes bs => simp [Artifact.version_set]
    | vnone => simp [Artifact.version_set]
  · intro s hs
    constructor
    · simp [Artifact.version_set, hs]
    · simp [Artifact.version]

/-- Witness for C3 on the test fixture with the new version "2.0.0". -/
theorem artifact_version_set_validates_witness :
    fixtureArtifact.version_set (PyVal.vstr "2.0.0")
        = Except.ok { fixtureArtifact with _version := PyVal.vstr "2.0.0" } ∧
      ({ fixtureArtifact with _version := PyVal.vstr "2.0.0"} : Artifact).version
        = PyVal.vstr "2.0.0" :=
  (artifact_version_set_validates fixtureArtifact (PyVal.vstr "2.0.0")).2
    "2.0.0" (by decide)

/-- The fixture keyword arguments plus an (invalid) empty version. -/
def kwBadVersion : List (String × PyVal) :=
  kwFixture ++ [("version", PyVal.vstr "")]

/-- C4 counterexample: constructing an Artifact with `version=""`
raises nothing — the constructor stores the supplied version without
validation — and the resulting artifact's version is the empty string,
so the non-empty-string invariant does not hold in every reachable
state. -/
theorem artifact_init_stores_invalid_version :
    (Artifact.init kwBadVersion).map (fun a => a.version.isNonEmptyStr)
      = Except.ok false := rfl

/-- C4 amended: the non-empty-string version invariant is established
by construction only when no `version` keyword is supplied (the default
"1.0.0" is used), it is enforced by every successful setter assignment,
and `save` never changes the version; a version supplied at
construction is stored unvalidated. -/
theorem artifact_version_invariant_amended (kw : List (String × PyVal))
    (a b b' : Artifact) (v d : PyVal)
    (hkw : kw.lookup "version" = none)
    (h : Artifact.init kw = Except.ok a)
    (hset : b.version_set v = Except.ok b') :
    a.version.isNonEmptyStr = true ∧
    b'.version.isNonEmptyStr = true ∧
    (b.save d).version = b.version := by
  refine ⟨?_, ?_, rfl⟩
  · unfold Artifact.init at h
    split at h
    · split at h
      · injection h with h
        subst h
        simp [Artifact.version, hkw, PyVal.isNonEmptyStr]
      · simp at h
    · simp at h
  · unfold Artifact.version_set at hset
    cases v with
    | vstr s =>
        by_cases hs : s = ""
        · simp [hs] at hset
        · simp [hs] at hset
          subst hset
          simp [Artifact.version, PyVal.isNonEmptyStr, hs]
    | vint n => simp at hset
    | vbytes bs => simp at hset
    | vnone => simp at hset

/-- Witness for the amended C4 on the test fixture. -/
theorem artifact_version_invariant_amended_witness :
    fixtureArtifact.version.isNonEmptyStr = true ∧
    fixtureArtifact2.version.isNonEmptyStr = true ∧
    (fixtureArtifact.save (PyVal.vbytes [1])).version = fixtureArtifact.version :=
  artifact_version_invariant_amended kwFixture fixtureArtifact fixtureArtifact
    fixtureArtifact2 (PyVal.vstr "2.0.0") (PyVal.vbytes [1]) rfl rfl rfl

/-- Keyword arguments whose `name` is the empty string. -/
def kwEmptyName : List (String × PyVal) :=
  [("name", PyVal.vstr ""), ("asset_path", PyVal.vstr "p"),
   ("data", PyVal.vbytes [120]), ("type", PyVal.vstr "t")]

/-- C5 counterexample: constructing an Artifact with an empty name
succeeds — no ValidationError is raised and the object exists with
name `""`. -/
theorem artifact_accepts_empty_name :
    (Artifact.init kwEmptyName).map Artifact.name = Except.ok "" := rfl

/-- C5 amended: `Artifact.name` carries no minimum-length constraint —
construction with any string name, the empty string included, succeeds
and stores it; the minimum-length ValidationError applies only to
`Feature`, whose construction with an empty name fails. -/
theorem artifact_name_no_min_length (n t : String) :
    (Artifact.init [("name", PyVal.vstr n), ("type", PyVal.vstr t)]).map
        Artifact.name = Except.ok n ∧
    Feature.init "" t = Except.error PyError.validationError :=
  ⟨rfl, rfl⟩

/-- C6: no operation changes `asset_path` after construction — a
successful version assignment leaves every field other than the version
unchanged, `save` leaves `asset_path` unchanged, and `id` combines the
original `asset_path` with the current version. -/
theorem artifact_asset_path_frame (a a' : Artifact) (v d : PyVal) (p : String)
    (hset : a.version_set v = Except.ok a')
    (hp : a.asset_path = PyVal.vstr p) :
    a'.asset_path = a.asset_path ∧ a'.name = a.name ∧ a'.type = a.type ∧
    a'.metadata = a.metadata ∧ a'.tags = a.tags ∧ a'._data = a._data ∧
    (a.save d).asset_path = a.asset_path ∧
    a'.id = Except.ok
      (urlsafe_b64encode (strEncode p) ++ ":" ++ pyStr a'.version) := by
  unfold Artifact.version_set at hset
  unfold Artifact.asset_path at hp
  cases v with
  | vstr s =>
      by_cases hs : s = ""
      · simp [hs] at hset
      · simp [hs] at hset
        subst hset
        refine ⟨rfl, rfl, rfl, rfl, rfl, rfl, rfl, ?_⟩
        simp [Artifact.id, hp, Artifact.version]
  | vint n => simp at hset
  | vbytes bs => simp at hset
  | vnone => simp at hset

/-- Witness for C6 on the test fixture. -/
theorem artifact_asset_path_frame_witness :
    fixtureArtifact2.asset_path = fixtureArtifact.asset_path ∧
    fixtureArtifact2.name = fixtureArtifact.name ∧
    fixtureArtifact2.type = fixtureArtifact.type ∧
    fixtureArtifact2.metadata = fixtureArtifact.metadata ∧
    fixtureArtifact2.tags = fixtureArtifact.tags ∧
    fixtureArtifact2._data = fixtureArtifact._data ∧
    (fixtureArtifact.save (PyVal.vbytes [1])).asset_path
      = fixtureArtifact.asset_path ∧
    fixtureArtifact2.id = Except.ok
      (urlsafe_b64encode (strEncode "path/to/asset") ++ ":"
        ++ pyStr fixtureArtifact2.version) :=
  artifact_asset_path_frame fixtureArtifact fixtureArtifact2
    (PyVal.vstr "2.0.0") (PyVal.vbytes [1]) "path/to/asset" rfl rfl

/-- C7: constructing without the `asset_path`/`data` keywords raises no
error — the fields silently become `None`, the `asset_path` getter
returns `None` — and accessing `id` succeeds exactly when `asset_path`
holds a string. -/
theorem artifact_init_missing_keys (n t : String) :
    (Artifact.init [("name", PyVal.vstr n), ("type", PyVal.vstr t)]).map
        (fun a => (a.asset_path, a.read, a.id))
      = Except.ok (PyVal.vnone, PyVal.vnone,
          Except.error PyError.attributeError) ∧
    ∀ a : Artifact,
      (∃ x, a.id = Except.ok x) ↔ ∃ p, a.asset_path = PyVal.vstr p := by
  constructor
  · rfl
  · intro a
    cases ha : a._asset_path <;>
      simp [Artifact.id, Artifact.asset_path, ha]

/-- A string has fewer characters than pydantic's `min_length=1` bound
exactly when it is empty. -/
theorem string_length_lt_one_iff (s : String) : s.length < 1 ↔ s = "" := by
  cases s with
  | mk data =>
      cases data with
      | nil => simp
      | cons c cs =>
          simp only [Nat.lt_one_iff]
          constructor
          · intro h
            simp at h
          · intro h
            simpa using congrArg String.data h

/-- C8: constructing a Feature raises ValidationError exactly when the
name is empty or the type is outside the two literals "categorical" and
"numerical"; otherwise construction succeeds and the object holds
exactly the given name and type. -/
theorem feature_init_validates (n t : String) :
    (Feature.init n t = Except.error PyError.validationError ↔
      n = "" ∨ (t ≠ "categorical" ∧ t ≠ "numerical")) ∧
    (Feature.init n t).map (fun f => (f.name, f.type.toStr))
      = if n = "" ∨ (t ≠ "categorical" ∧ t ≠ "numerical")
        then Except.error PyError.validationError
        else Except.ok (n, t) := by
  unfold Feature.init
  by_cases hn : n.length < 1
  · have hn' : n = "" := (string_length_lt_one_iff n).mp hn
    rw [if_pos hn]
    simp [hn', Except.map]
  · have hn' : n ≠ "" := fun h => hn ((string_length_lt_one_iff n).mpr h)
    rw [if_neg hn]
    by_cases ht : t = "categorical"
    · rw [if_pos ht]
      simp [hn', ht, FType.toStr, Except.map]
    · rw [if_neg ht]
      by_cases ht2 : t = "numerical"
      · rw [if_pos ht2]
        simp [hn', ht, ht2, FType.toStr, Except.map]
      · rw [if_neg ht2]
        simp [hn', ht, ht2, Except.map]

/-- C9: the display string of a successfully constructed Feature is
exactly `Feature(name='<n>', type='<t>')` for the given name and
type. -/
theorem feature_display_string (n t : String) (f : Feature)
    (h : Feature.init n t = Except.ok f) :
    f.toDisplayString = "Feature(name='" ++ n ++ "', type='" ++ t ++ "')" := by
  unfold Feature.init at h
  by_cases hn : n.length < 1
  · rw [if_pos hn] at h
    simp at h
  · rw [if_neg hn] at h
    by_cases ht : t = "categorical"
    · rw [if_pos ht] at h
      injection h with h
      subst h
      simp [Feature.toDisplayString, FType.toStr, ht]
    · rw [if_neg ht] at h
      by_cases ht2 : t = "numerical"
      · rw [if_pos ht2] at h
        injection h with h
        subst h
        simp [Feature.toDisplayString, FType.toStr, ht2]
      · rw [if_neg ht2] at h
        simp at h

/-- Witness for C9 on `Feature(name="age", type="numerical")`. -/
theorem feature_display_string_witness :
    featureAge.toDisplayString = "Feature(name='age', type='numerical')" := by
  rw [feature_display_string "age" "numerical" featureAge rfl]
  rfl

/-- C10: the version setter is atomic on error — when the assignment
raises, the stored version and the derived `id` are exactly what they
were before the failed assignment. -/
theorem version_set_atomic_on_error (a : Artifact) (v : PyVal) (e : PyError)
    (h : a.version_set v = Except.error e) :
    a.version_set_state v = a ∧
    (a.version_set_state v).version = a.version ∧
    (a.version_set_state v).id = a.id := by
  have hs : a.version_set_state v = a := by
    unfold Artifact.version_set_state
    rw [h]
  exact ⟨hs, by rw [hs], by rw [hs]⟩

/-- Witness for C10: assigning the empty version to the fixture fails
and leaves version and id unchanged. -/
theorem version_set_atomic_on_error_witness :
    fixtureArtifact.version_set_state (PyVal.vstr "") = fixtureArtifact ∧
    (fixtureArtifact.version_set_state (PyVal.vstr "")).version
      = fixtureArtifact.version ∧
    (fixtureArtifact.version_set_state (PyVal.vstr "")).id
      = fixtureArtifact.id :=
  version_set_atomic_on_error fixtureArtifact (PyVal.vstr "")
    (PyError.valueError "Version must be a non-empty string.") rfl
